import Mathlib

/-!
Verification of the battle-simulation engine of THEDOTGAMES
(`src/utils/simulation.ts`, the phase-based free-for-all engine).

The embedding models numbers as rationals (ℚ).  The source compares
Euclidean distances via `Math.sqrt(dx*dx+dy*dy) < bound`; since the radicand
is a sum of squares (hence nonnegative), that comparison is equivalent to
`0 < bound ∧ dx*dx+dy*dy < bound*bound`, which is how it is rendered here so
that the development stays executable.  The one place where a square root
appears in a computed *value* (the velocity clamp) is modelled over ℝ with
`Real.sqrt`.

Randomness (`Math.random()`), the second wall clock (`Date.now()` vs the
`requestAnimationFrame` timestamp) and the per-dot physics (behaviour
targeting, force integration, wall bounce) are modelled as explicit oracle
inputs to the frame step; the physics oracle writes exactly the fields the
source's movement block writes (`x`, `y`, `size`), never `id`, `name`,
`power`, `speed` or `eliminations`.
-/

namespace DotGames

/-- Power kinds, from `DotPower.type` in `types/index.ts`. -/
inductive PowerType where
  | speed
  | shield
  | teleport
  | grow
deriving DecidableEq

/-- `DotPower` from `types/index.ts`. -/
structure DotPower where
  type : PowerType
  duration : ℚ
  active : Bool
  cooldown : ℚ
  lastUsed : ℚ
deriving DecidableEq

/-- `Dot` from `types/index.ts`. -/
structure Dot where
  id : String
  name : String
  x : ℚ
  y : ℚ
  size : ℚ
  color : String
  speed : ℚ
  eliminations : ℕ
  power : Option DotPower
deriving DecidableEq

instance : Inhabited Dot :=
  ⟨{ id := "", name := "", x := 0, y := 0, size := 0, color := "", speed := 0,
     eliminations := 0, power := none }⟩

/-- `EliminationEvent` from `types/index.ts`. -/
structure EliminationEvent where
  timestamp : ℚ
  eliminatorId : String
  eliminatorName : String
  eliminatedId : String
  eliminatedName : String
deriving DecidableEq

/-- `SimulationState` from `types/index.ts`. -/
structure SimulationState where
  dots : List Dot
  eliminationLog : List EliminationEvent
  winner : Option Dot
  inProgress : Bool
  lastUpdateTime : Option ℚ
  simulationDate : Option String
deriving DecidableEq

/-- `BattleConfig` from `simulation.ts` (the three string knobs are carried
but unused by the numeric logic, as in the source). -/
structure BattleConfig where
  intensity : String
  duration : String
  powerFrequency : String
  aggressionMultiplier : ℚ
  speedMultiplier : ℚ
  powerChance : ℚ
  battleDurationMinutes : ℚ
  arenaShrinksAt : ℚ
deriving DecidableEq

/-- `DEFAULT_CONFIG` from `simulation.ts`. -/
def DEFAULT_CONFIG : BattleConfig :=
  { intensity := "normal", duration := "normal", powerFrequency := "normal",
    aggressionMultiplier := 1, speedMultiplier := 1, powerChance := 1/2,
    battleDurationMinutes := 2, arenaShrinksAt := 7/10 }

/-- `BattlePhase` from `simulation.ts`. -/
inductive BattlePhase where
  | early
  | middle
  | late
  | final
deriving DecidableEq

/-- `getBattlePhase` from `simulation.ts` (ℚ division is total with
`x / 0 = 0`, matching the source only for positive durations, which is the
regime all theorems below use). -/
def getBattlePhase (elapsedTime totalDuration : ℚ) : BattlePhase :=
  let progress := elapsedTime / totalDuration
  if progress < 3/10 then .early
  else if progress < 7/10 then .middle
  else if progress < 9/10 then .late
  else .final

/-- The elimination distance computed at the top of `checkEliminations`:
`baseDistance = 15`, scaled by the config's aggression multiplier and by 1.5
in the final phase. -/
def phaseElimDistance (phase : BattlePhase) (config : BattleConfig) : ℚ :=
  if phase = .final then 15 * (3/2) * config.aggressionMultiplier
  else 15 * config.aggressionMultiplier

/-- The growth factor computed at the top of `checkEliminations`:
`baseGrowth = 1.5`, scaled by the aggression multiplier and by 1.3 in the
final phase. -/
def phaseGrowthFactor (phase : BattlePhase) (config : BattleConfig) : ℚ :=
  if phase = .final then (3/2) * (13/10) * config.aggressionMultiplier
  else (3/2) * config.aggressionMultiplier

/-- The shield test of `checkEliminations`:
`eliminated.power?.active && eliminated.power.type === "shield"`. -/
def shieldBlocks (d : Dot) : Bool :=
  match d.power with
  | some p => p.active && decide (p.type = PowerType.shield)
  | none => false

/-- State threaded through the pairwise loop of `checkEliminations`: the
dots array (mutated in place by the source) and the accumulated events. -/
structure ElimState where
  dots : List Dot
  events : List EliminationEvent
deriving DecidableEq

/-- The body run when `checkEliminations` has picked an eliminator and an
eliminated dot: shield check, event push, then eliminator growth and kill
count (the berserker branch additionally adds `0.5 * intensity` to the
eliminator's size; the personality-aggression bump is not represented since
no later read in the same pass depends on it). -/
def resolveElim (phase : BattlePhase) (config : BattleConfig) (bers : String → Bool)
    (now : ℚ) (st : ElimState) (ki vi : ℕ) : ElimState :=
  let killer := st.dots.getD ki default
  let victim := st.dots.getD vi default
  if shieldBlocks victim then st
  else
    let ev : EliminationEvent :=
      { timestamp := now, eliminatorId := killer.id, eliminatorName := killer.name,
        eliminatedId := victim.id, eliminatedName := victim.name }
    let grown : Dot :=
      { killer with
        size := killer.size + phaseGrowthFactor phase config +
          (if bers killer.id then (1/2) * config.aggressionMultiplier else 0),
        eliminations := killer.eliminations + 1 }
    { dots := st.dots.set ki grown, events := st.events ++ [ev] }

/-- One iteration of the nested pair loop of `checkEliminations` for the
index pair `p` (`p.1 < p.2`).  The distance test renders
`sqrt(dx²+dy²) < bound` as `0 < bound ∧ dx²+dy² < bound²` (equivalent, the
radicand being nonnegative). -/
def elimPairStep (phase : BattlePhase) (config : BattleConfig) (bers : String → Bool)
    (now : ℚ) (st : ElimState) (p : ℕ × ℕ) : ElimState :=
  let dot1 := st.dots.getD p.1 default
  let dot2 := st.dots.getD p.2 default
  let dx := dot2.x - dot1.x
  let dy := dot2.y - dot1.y
  let dist2 := dx * dx + dy * dy
  let bound := max dot1.size dot2.size + phaseElimDistance phase config
  if 0 < bound ∧ dist2 < bound * bound then
    let minSizeDiff := max 1 (2 - config.aggressionMultiplier)
    if dot1.size > dot2.size ∧ dot1.size - dot2.size ≥ minSizeDiff then
      resolveElim phase config bers now st p.1 p.2
    else if dot2.size > dot1.size ∧ dot2.size - dot1.size ≥ minSizeDiff then
      resolveElim phase config bers now st p.2 p.1
    else st
  else st

/-- The index pairs `(i, j)`, `i < j < n`, in the order of the source's
nested `for` loops. -/
def pairIndices (n : ℕ) : List (ℕ × ℕ) :=
  (List.range n).flatMap fun i => ((List.range n).drop (i + 1)).map fun j => (i, j)

/-- `checkEliminations` from `simulation.ts`: fold the pair step over every
unordered pair of the (current) dots array.  Returns the updated dots
together with the elimination events, mirroring the source's in-place
mutation plus returned event list. -/
def checkEliminations (dots : List Dot) (phase : BattlePhase) (config : BattleConfig)
    (bers : String → Bool) (now : ℚ) : ElimState :=
  (pairIndices dots.length).foldl (elimPairStep phase config bers now) ⟨dots, []⟩

/-- The aggression factor applied per phase at the top of `update`
(`phaseAggressionMultiplier *= 1.3 / 1.6 / 2.0`). -/
def phaseAggressionFactor : BattlePhase → ℚ
  | .early => 1
  | .middle => 13/10
  | .late => 8/5
  | .final => 2

/-- The speed factor applied per phase at the top of `update`
(`phaseSpeedMultiplier *= 1.1 / 1.3 / 1.5`). -/
def phaseSpeedFactor : BattlePhase → ℚ
  | .early => 1
  | .middle => 11/10
  | .late => 13/10
  | .final => 3/2

/-- The power-activation check run for each dot at the start of the per-dot
frame body: if the dot holds an inactive power whose cooldown has elapsed
and the random draw `r` beats `powChance * deltaTime`, the power becomes
active with `lastUsed := now`.  The matching *deactivation* is scheduled by
the source through `setTimeout(... active = false, duration)` — an external
timer outside the frame loop — so no deactivation appears here. -/
def powerActivationStep (powChance dt now r : ℚ) (d : Dot) : Dot :=
  match d.power with
  | some p =>
      if ¬p.active ∧ now - p.lastUsed ≥ p.cooldown ∧ r < powChance * dt then
        { d with power := some { p with active := true, lastUsed := now } }
      else d
  | none => d

/-- The behaviour/movement/power-effect/wall block of the per-dot frame
body, abstracted as an oracle `f` (it consumes randomness, the velocity
map and the arena, all outside this model).  The source's block writes only
`dot.x`, `dot.y` and `dot.size`; the oracle returns those three values and
the rest of the record is untouched. -/
def applyPhys (f : List Dot → ℕ → Dot → ℚ × ℚ × ℚ) (dots : List Dot) (i : ℕ)
    (d : Dot) : Dot :=
  let u := f dots i d
  { d with x := u.1, y := u.2.1, size := u.2.2 }

/-- The `state.dots.forEach(...)` loop of `update`: each dot in turn gets
the power-activation check followed by the movement block, in place (later
dots observe the already-updated earlier dots, as in the source). -/
def moveDots (powChance dt now : ℚ) (rand : ℕ → ℚ)
    (f : List Dot → ℕ → Dot → ℚ × ℚ × ℚ) (dots : List Dot) : List Dot :=
  (List.range dots.length).foldl
    (fun acc i =>
      acc.set i (applyPhys f acc i (powerActivationStep powChance dt now (rand i)
        (acc.getD i default))))
    dots

/-- `state.dots.reduce((largest, current) => current.size > largest.size ?
current : largest)` — JS `reduce` with no seed starts from the head. -/
def largestDot (d : Dot) (rest : List Dot) : Dot :=
  rest.foldl (fun largest current =>
    if current.size > largest.size then current else largest) d

/-- The per-frame inputs of `update` that the embedding treats as oracles:
the frame timestamp (`currentTime`, also standing in for `Date.now()`), the
elapsed battle time, the frame delta, the random draws and the physics
block. -/
structure FrameInput where
  now : ℚ
  elapsed : ℚ
  dt : ℚ
  rand : ℕ → ℚ
  phys : List Dot → ℕ → Dot → ℚ × ℚ × ℚ

/-- What one call of `update` does, observably: the new state, the
snapshots passed to `onUpdate`, the dot passed to `onComplete` (if any) and
whether another frame was scheduled via `requestAnimationFrame`. -/
structure FrameResult where
  state : SimulationState
  emitted : List SimulationState
  completed : Option Dot
  cont : Bool

/-- One call of the `update` closure of `generateSimulation`: the
termination branch (time up or at most one dot: pick the largest remaining
dot as winner when there is one, emit, complete, stop), otherwise the
per-dot frame body, `checkEliminations`, log append and pruning of the
eliminated dots, snapshot emission and rescheduling. -/
def updateFrame (config : BattleConfig) (matchDuration : ℚ) (bers : String → Bool)
    (inp : FrameInput) (st0 : SimulationState) : FrameResult :=
  let st := { st0 with lastUpdateTime := some inp.now }
  let phase := getBattlePhase inp.elapsed matchDuration
  if inp.elapsed ≥ matchDuration ∨ st.dots.length ≤ 1 then
    let st2 :=
      match st.winner, st.dots with
      | none, d :: rest =>
          { st with winner := some (largestDot d rest), inProgress := false }
      | _, _ => st
    { state := st2, emitted := [st2], completed := st2.winner, cont := false }
  else
    let phaseAggression := config.aggressionMultiplier * phaseAggressionFactor phase
    let basePowerChance := (1/20) * (config.powerChance / (1/2))
    let powChance := basePowerChance * phaseAggression
    let dots1 := moveDots powChance inp.dt inp.now inp.rand inp.phys st.dots
    let res := checkEliminations dots1 phase config bers inp.now
    let st2 :=
      if res.events.length > 0 then
        { st with
          dots := res.dots.filter
            (fun d => !res.events.any (fun e => e.eliminatedId == d.id)),
          eliminationLog := st.eliminationLog ++ res.events }
      else { st with dots := res.dots }
    { state := st2, emitted := [st2], completed := none, cont := st2.inProgress }

/-- Iterated frames, as scheduled by `requestAnimationFrame`: run `update`
on each input in turn until it stops rescheduling (or inputs run out),
collecting every emitted snapshot and every `onComplete` argument. -/
def runFrames (config : BattleConfig) (matchDuration : ℚ) (bers : String → Bool) :
    List FrameInput → SimulationState → List SimulationState × List Dot
  | [], _ => ([], [])
  | inp :: rest, st =>
      let r := updateFrame config matchDuration bers inp st
      if r.cont then
        let tail := runFrames config matchDuration bers rest r.state
        (r.emitted ++ tail.1, r.completed.toList ++ tail.2)
      else (r.emitted, r.completed.toList)

/-- The match duration fixed once by `generateSimulation`:
`battleDurationMinutes` in milliseconds, scaled by the participant factor
clamped to [0.5, 2]. -/
def computeMatchDuration (config : BattleConfig) (n : ℕ) : ℚ :=
  (config.battleDurationMinutes * 60 * 1000) * max (1/2) (min 2 ((n : ℚ) / 20))

/-- Source: `Math.sqrt(velocity.vx * velocity.vx + velocity.vy * velocity.vy)`
— the speed magnitude of a velocity vector. -/
noncomputable def speedOf (v : ℝ × ℝ) : ℝ :=
  Real.sqrt (v.1 * v.1 + v.2 * v.2)

open Classical in
/-- The velocity clamp at the end of the movement block: if the magnitude
exceeds `maxSpeed` (`8 * phaseSpeedMultiplier`), rescale the vector
proportionally; otherwise leave it unchanged.  This is the only speed bound
in the source — there is no lower clamp. -/
noncomputable def limitVelocity (v : ℝ × ℝ) (maxSpeed : ℝ) : ℝ × ℝ :=
  let speed := speedOf v
  if speed > maxSpeed then (v.1 / speed * maxSpeed, v.2 / speed * maxSpeed)
  else v

/-- A dot with the given id, name, position and size (fresh combat record,
no power). -/
def mkDot (i nm : String) (px py sz : ℚ) : Dot :=
  { id := i, name := nm, x := px, y := py, size := sz, color := "c", speed := 3,
    eliminations := 0, power := none }

/-- Like `mkDot` but with an explicit elimination count (for states reached
mid-pass). -/
def mkDotK (i nm : String) (px py sz : ℚ) (k : ℕ) : Dot :=
  { id := i, name := nm, x := px, y := py, size := sz, color := "c", speed := 3,
    eliminations := k, power := none }

/-- An elimination event at timestamp 0. -/
def mkEv (a an b bn : String) : EliminationEvent :=
  { timestamp := 0, eliminatorId := a, eliminatorName := an,
    eliminatedId := b, eliminatedName := bn }

/-- No dot has a berserker personality (the personality map contains no
berserkers outside the final phase). -/
def bersNone : String → Bool := fun _ => false

def wipeA : Dot := mkDot "d1" "n1" 400 300 20

def wipeB : Dot := mkDot "d2" "n2" 415 325 19

def wipeC : Dot := mkDot "d3" "n3" 415 275 (45/2)

def wipeD : Dot := mkDot "d4" "n4" 368 315 (41/2)

def wipeE : Dot := mkDot "d5" "n5" 375 275 22

def wipeF : Dot := mkDot "d6" "n6" 430 300 (47/2)

/-- A six-dot roster on which one `checkEliminations` pass eliminates every
dot: dots eliminated earlier in the pass keep acting as eliminators in the
remaining pair checks, so the whole active set is wiped in a single frame. -/
def wipeDots : List Dot :=
  [wipeA, wipeB, wipeC, wipeD, wipeE, wipeF]

def wipeA1 : Dot := mkDotK "d1" "n1" 400 300 (43/2) 1

def wipeA2 : Dot := mkDotK "d1" "n1" 400 300 23 2

def wipeA3 : Dot := mkDotK "d1" "n1" 400 300 (49/2) 3

def wipeA4 : Dot := mkDotK "d1" "n1" 400 300 26 4

def wipeC1 : Dot := mkDotK "d3" "n3" 415 275 24 1

def wipeF1 : Dot := mkDotK "d6" "n6" 430 300 25 1

def wipeF2 : Dot := mkDotK "d6" "n6" 430 300 (53/2) 2

def ev12 : EliminationEvent := mkEv "d1" "n1" "d2" "n2"

def ev31 : EliminationEvent := mkEv "d3" "n3" "d1" "n1"

def ev14 : EliminationEvent := mkEv "d1" "n1" "d4" "n4"

def ev15 : EliminationEvent := mkEv "d1" "n1" "d5" "n5"

def ev16 : EliminationEvent := mkEv "d1" "n1" "d6" "n6"

def ev62 : EliminationEvent := mkEv "d6" "n6" "d2" "n2"

def ev63 : EliminationEvent := mkEv "d6" "n6" "d3" "n3"

def wS1 : ElimState := ⟨[wipeA1, wipeB, wipeC, wipeD, wipeE, wipeF], [ev12]⟩

def wS2 : ElimState := ⟨[wipeA1, wipeB, wipeC1, wipeD, wipeE, wipeF], [ev12, ev31]⟩

def wS3 : ElimState :=
  ⟨[wipeA2, wipeB, wipeC1, wipeD, wipeE, wipeF], [ev12, ev31, ev14]⟩

def wS4 : ElimState :=
  ⟨[wipeA3, wipeB, wipeC1, wipeD, wipeE, wipeF], [ev12, ev31, ev14, ev15]⟩

def wS5 : ElimState :=
  ⟨[wipeA4, wipeB, wipeC1, wipeD, wipeE, wipeF], [ev12, ev31, ev14, ev15, ev16]⟩

def wS9 : ElimState :=
  ⟨[wipeA4, wipeB, wipeC1, wipeD, wipeE, wipeF1], [ev12, ev31, ev14, ev15, ev16, ev62]⟩

def wS12 : ElimState :=
  ⟨[wipeA4, wipeB, wipeC1, wipeD, wipeE, wipeF2],
   [ev12, ev31, ev14, ev15, ev16, ev62, ev63]⟩

/-- Physics oracle that leaves position and size unchanged (one possible
resolution of the randomness: e.g. a frame with zero delta-time, where the
integration moves nothing). -/
def physId : List Dot → ℕ → Dot → ℚ × ℚ × ℚ := fun _ _ d => (d.x, d.y, d.size)

/-- A frame input at the very start of the battle with inert physics. -/
def inpW : FrameInput :=
  { now := 0, elapsed := 0, dt := 0, rand := fun _ => 1, phys := physId }

/-- Initial simulation state over the six-dot wipe roster. -/
def wipeInit : SimulationState :=
  { dots := wipeDots, eliminationLog := [], winner := none, inProgress := true,
    lastUpdateTime := none, simulationDate := none }

/-- The state after the wipe frame: no dot left, every id in the log, no
winner, still flagged in progress. -/
def wipeAfter : SimulationState :=
  { dots := [], eliminationLog := [ev12, ev31, ev14, ev15, ev16, ev62, ev63],
    winner := none, inProgress := true, lastUpdateTime := some 0,
    simulationDate := none }

def tripA : Dot := mkDot "a" "na" 100 100 10

def tripB : Dot := mkDot "b" "nb" 105 100 5

def tripC : Dot := mkDot "c" "nc" 110 100 3

/-- A three-dot roster in which the middle dot both eliminates and is
eliminated within the same frame, and the smallest dot is eliminated twice
within that frame. -/
def tripDots : List Dot := [tripA, tripB, tripC]

def tripA1 : Dot := mkDotK "a" "na" 100 100 (23/2) 1

def tripA2 : Dot := mkDotK "a" "na" 100 100 13 2

def tripB1 : Dot := mkDotK "b" "nb" 105 100 (13/2) 1

def evab : EliminationEvent := mkEv "a" "na" "b" "nb"

def evac : EliminationEvent := mkEv "a" "na" "c" "nc"

def evbc : EliminationEvent := mkEv "b" "nb" "c" "nc"

def tS1 : ElimState := ⟨[tripA1, tripB, tripC], [evab]⟩

def tS2 : ElimState := ⟨[tripA2, tripB, tripC], [evab, evac]⟩

def tS3 : ElimState := ⟨[tripA2, tripB1, tripC], [evab, evac, evbc]⟩

/-- Initial simulation state over the three-dot roster. -/
def tripInit : SimulationState :=
  { dots := tripDots, eliminationLog := [], winner := none, inProgress := true,
    lastUpdateTime := none, simulationDate := none }

/-- After the frame: only the big dot survives; the log holds a duplicated
eliminated id. -/
def tripAfter : SimulationState :=
  { dots := [tripA2], eliminationLog := [evab, evac, evbc], winner := none,
    inProgress := true, lastUpdateTime := some 0, simulationDate := none }

/-- A dot holding a power that has been active since timestamp 0 with a
duration of only 5ms. -/
def powDotA : Dot :=
  { id := "p1", name := "np1", x := 100, y := 100, size := 10, color := "c",
    speed := 3, eliminations := 0,
    power := some { type := .grow, duration := 5, active := true, cooldown := 8,
                    lastUsed := 0 } }

def powDotB : Dot := mkDot "p2" "np2" 700 500 10

def powDots : List Dot := [powDotA, powDotB]

def powInit : SimulationState :=
  { dots := powDots, eliminationLog := [], winner := none, inProgress := true,
    lastUpdateTime := none, simulationDate := none }

def powAfter : SimulationState :=
  { dots := powDots, eliminationLog := [], winner := none, inProgress := true,
    lastUpdateTime := some 1000, simulationDate := none }

/-- A frame input 1000ms into the battle, long after the 5ms power duration
has elapsed. -/
def inpPow : FrameInput :=
  { now := 1000, elapsed := 1000, dt := 1/60, rand := fun _ => 1, phys := physId }

/-- The ids of a list of dots, in order. -/
def dotIds (l : List Dot) : List String := l.map (fun d => d.id)

/-- The finite set of active ids. -/
def idSet (l : List Dot) : Finset String := (dotIds l).toFinset

/-- The eliminated ids recorded in a list of events (with multiplicity). -/
def elimIds (log : List EliminationEvent) : List String :=
  log.map (fun e => e.eliminatedId)

/-- The distinct eliminated ids recorded in a list of events. -/
def elimIdSet (log : List EliminationEvent) : Finset String := (elimIds log).toFinset

/-- Driver-level conservation invariant: active ids are distinct, no active
id is logged as eliminated, and actives + distinct eliminated ids = the
initial roster count. -/
def conserved (n0 : ℕ) (st : SimulationState) : Prop :=
  (dotIds st.dots).Nodup ∧
  Disjoint (idSet st.dots) (elimIdSet st.eliminationLog) ∧
  st.dots.length + (elimIdSet st.eliminationLog).card = n0

def sizeDotX : Dot := mkDot "x" "nx" 10 10 5

def sizeDotY : Dot := mkDot "y" "ny" 20 20 12

def sizeDotZ : Dot := mkDot "z" "nz" 30 30 8

/-- Three dots of sizes 5, 12 and 8 still active at time expiry. -/
def timeoutState : SimulationState :=
  { dots := [sizeDotX, sizeDotY, sizeDotZ], eliminationLog := [], winner := none,
    inProgress := true, lastUpdateTime := none, simulationDate := none }

/-- A frame input at the moment the clock runs out. -/
def inpEnd : FrameInput :=
  { now := 120000, elapsed := 120000, dt := 1/60, rand := fun _ => 1, phys := physId }

def soloDot : Dot := mkDot "s" "ns" 100 100 10

/-- A roster of exactly one dot. -/
def soloInit : SimulationState :=
  { dots := [soloDot], eliminationLog := [], winner := none, inProgress := true,
    lastUpdateTime := none, simulationDate := none }

/-- The empty roster. -/
def emptyInit : SimulationState :=
  { dots := [], eliminationLog := [], winner := none, inProgress := true,
    lastUpdateTime := none, simulationDate := none }

def pairDotA : Dot := mkDot "q1" "nq1" 50 50 7

def pairDotB : Dot := mkDot "q2" "nq2" 600 400 9

/-- Two dots still active when time expires. -/
def pairState : SimulationState :=
  { dots := [pairDotA, pairDotB], eliminationLog := [], winner := none,
    inProgress := true, lastUpdateTime := none, simulationDate := none }

/-- A small dot carrying an active shield, in contact with a larger dot. -/
def shieldSmall : Dot :=
  { id := "sh", name := "nsh", x := 105, y := 100, size := 5, color := "c",
    speed := 3, eliminations := 0,
    power := some { type := .shield, duration := 3000, active := true,
                    cooldown := 8000, lastUsed := 0 } }

def shieldBig : Dot := mkDot "bg" "nbg" 100 100 10

def shieldState : ElimState := ⟨[shieldBig, shieldSmall], []⟩

theorem getD_lit0 {α : Type} (a : α) (l : List α) (d : α) : (a :: l).getD 0 d = a := rfl

theorem getD_lit1 {α : Type} (a b : α) (l : List α) (d : α) :
    (a :: b :: l).getD 1 d = b := rfl

theorem getD_lit2 {α : Type} (a b c : α) (l : List α) (d : α) :
    (a :: b :: c :: l).getD 2 d = c := rfl

theorem getD_lit3 {α : Type} (a b c e : α) (l : List α) (d : α) :
    (a :: b :: c :: e :: l).getD 3 d = e := rfl

theorem getD_lit4 {α : Type} (a b c e f : α) (l : List α) (d : α) :
    (a :: b :: c :: e :: f :: l).getD 4 d = f := rfl

theorem getD_lit5 {α : Type} (a b c e f g : α) (l : List α) (d : α) :
    (a :: b :: c :: e :: f :: g :: l).getD 5 d = g := rfl

theorem set_lit0 {α : Type} (a : α) (l : List α) (x : α) : (a :: l).set 0 x = x :: l := rfl

theorem set_lit1 {α : Type} (a b : α) (l : List α) (x : α) :
    (a :: b :: l).set 1 x = a :: x :: l := rfl

theorem set_lit2 {α : Type} (a b c : α) (l : List α) (x : α) :
    (a :: b :: c :: l).set 2 x = a :: b :: x :: l := rfl

theorem set_lit3 {α : Type} (a b c e : α) (l : List α) (x : α) :
    (a :: b :: c :: e :: l).set 3 x = a :: b :: c :: x :: l := rfl

theorem set_lit4 {α : Type} (a b c e f : α) (l : List α) (x : α) :
    (a :: b :: c :: e :: f :: l).set 4 x = a :: b :: c :: e :: x :: l := rfl

theorem set_lit5 {α : Type} (a b c e f g : α) (l : List α) (x : α) :
    (a :: b :: c :: e :: f :: g :: l).set 5 x = a :: b :: c :: e :: f :: x :: l := rfl

theorem pairIndices_six :
    pairIndices 6 = [(0,1), (0,2), (0,3), (0,4), (0,5), (1,2), (1,3), (1,4), (1,5),
      (2,3), (2,4), (2,5), (3,4), (3,5), (4,5)] := rfl

theorem default_aggression : DEFAULT_CONFIG.aggressionMultiplier = 1 := rfl

theorem phaseElimDistance_early_default :
    phaseElimDistance .early DEFAULT_CONFIG = 15 := by
  simp [phaseElimDistance, DEFAULT_CONFIG]

theorem phaseGrowthFactor_early_default :
    phaseGrowthFactor .early DEFAULT_CONFIG = 3/2 := by
  simp [phaseGrowthFactor, DEFAULT_CONFIG]

theorem wipeStep1 :
    elimPairStep .early DEFAULT_CONFIG bersNone 0 ⟨wipeDots, []⟩ (0, 1) = wS1 := by
  norm_num [elimPairStep, resolveElim, shieldBlocks,
    phaseElimDistance_early_default, phaseGrowthFactor_early_default, default_aggression,
    bersNone, mkDot, mkDotK, mkEv, wipeDots, wipeA, wipeB, wipeC, wipeD, wipeE, wipeF,
    wipeA1, wipeA2, wipeA3, wipeA4, wipeC1, wipeF1, wipeF2,
    ev12, ev31, ev14, ev15, ev16, ev62, ev63, wS1, wS2, wS3, wS4, wS5, wS9, wS12,
    getD_lit0, getD_lit1, getD_lit2, getD_lit3, getD_lit4, getD_lit5,
    set_lit0, set_lit1, set_lit2, set_lit3, set_lit4, set_lit5]

theorem wipeStep2 :
    elimPairStep .early DEFAULT_CONFIG bersNone 0 wS1 (0, 2) = wS2 := by
  norm_num [elimPairStep, resolveElim, shieldBlocks,
    phaseElimDistance_early_default, phaseGrowthFactor_early_default, default_aggression,
    bersNone, mkDot, mkDotK, mkEv, wipeDots, wipeA, wipeB, wipeC, wipeD, wipeE, wipeF,
    wipeA1, wipeA2, wipeA3, wipeA4, wipeC1, wipeF1, wipeF2,
    ev12, ev31, ev14, ev15, ev16, ev62, ev63, wS1, wS2, wS3, wS4, wS5, wS9, wS12,
    getD_lit0, getD_lit1, getD_lit2, getD_lit3, getD_lit4, getD_lit5,
    set_lit0, set_lit1, set_lit2, set_lit3, set_lit4, set_lit5]

theorem wipeStep3 :
    elimPairStep .early DEFAULT_CONFIG bersNone 0 wS2 (0, 3) = wS3 := by
  norm_num [elimPairStep, resolveElim, shieldBlocks,
    phaseElimDistance_early_default, phaseGrowthFactor_early_default, default_aggression,
    bersNone, mkDot, mkDotK, mkEv, wipeDots, wipeA, wipeB, wipeC, wipeD, wipeE, wipeF,
    wipeA1, wipeA2, wipeA3, wipeA4, wipeC1, wipeF1, wipeF2,
    ev12, ev31, ev14, ev15, ev16, ev62, ev63, wS1, wS2, wS3, wS4, wS5, wS9, wS12,
    getD_lit0, getD_lit1, getD_lit2, getD_lit3, getD_lit4, getD_lit5,
    set_lit0, set_lit1, set_lit2, set_lit3, set_lit4, set_lit5]

theorem wipeStep4 :
    elimPairStep .early DEFAULT_CONFIG bersNone 0 wS3 (0, 4) = wS4 := by
  norm_num [elimPairStep, resolveElim, shieldBlocks,
    phaseElimDistance_early_default, phaseGrowthFactor_early_default, default_aggression,
    bersNone, mkDot, mkDotK, mkEv, wipeDots, wipeA, wipeB, wipeC, wipeD, wipeE, wipeF,
    wipeA1, wipeA2, wipeA3, wipeA4, wipeC1, wipeF1, wipeF2,
    ev12, ev31, ev14, ev15, ev16, ev62, ev63, wS1, wS2, wS3, wS4, wS5, wS9, wS12,
    getD_lit0, getD_lit1, getD_lit2, getD_lit3, getD_lit4, getD_lit5,
    set_lit0, set_lit1, set_lit2, set_lit3, set_lit4, set_lit5]

theorem wipeStep5 :
    elimPairStep .early DEFAULT_CONFIG bersNone 0 wS4 (0, 5) = wS5 := by
  norm_num [elimPairStep, resolveElim, shieldBlocks,
    phaseElimDistance_early_default, phaseGrowthFactor_early_default, default_aggression,
    bersNone, mkDot, mkDotK, mkEv, wipeDots, wipeA, wipeB, wipeC, wipeD, wipeE, wipeF,
    wipeA1, wipeA2, wipeA3, wipeA4, wipeC1, wipeF1, wipeF2,
    ev12, ev31, ev14, ev15, ev16, ev62, ev63, wS1, wS2, wS3, wS4, wS5, wS9, wS12,
    getD_lit0, getD_lit1, getD_lit2, getD_lit3, getD_lit4, getD_lit5,
    set_lit0, set_lit1, set_lit2, set_lit3, set_lit4, set_lit5]

theorem wipeStep6 :
    elimPairStep .early DEFAULT_CONFIG bersNone 0 wS5 (1, 2) = wS5 := by
  norm_num [elimPairStep, resolveElim, shieldBlocks,
    phaseElimDistance_early_default, phaseGrowthFactor_early_default, default_aggression,
    bersNone, mkDot, mkDotK, mkEv, wipeDots, wipeA, wipeB, wipeC, wipeD, wipeE, wipeF,
    wipeA1, wipeA2, wipeA3, wipeA4, wipeC1, wipeF1, wipeF2,
    ev12, ev31, ev14, ev15, ev16, ev62, ev63, wS1, wS2, wS3, wS4, wS5, wS9, wS12,
    getD_lit0, getD_lit1, getD_lit2, getD_lit3, getD_lit4, getD_lit5,
    set_lit0, set_lit1, set_lit2, set_lit3, set_lit4, set_lit5]

theorem wipeStep7 :
    elimPairStep .early DEFAULT_CONFIG bersNone 0 wS5 (1, 3) = wS5 := by
  norm_num [elimPairStep, resolveElim, shieldBlocks,
    phaseElimDistance_early_default, phaseGrowthFactor_early_default, default_aggression,
    bersNone, mkDot, mkDotK, mkEv, wipeDots, wipeA, wipeB, wipeC, wipeD, wipeE, wipeF,
    wipeA1, wipeA2, wipeA3, wipeA4, wipeC1, wipeF1, wipeF2,
    ev12, ev31, ev14, ev15, ev16, ev62, ev63, wS1, wS2, wS3, wS4, wS5, wS9, wS12,
    getD_lit0, getD_lit1, getD_lit2, getD_lit3, getD_lit4, getD_lit5,
    set_lit0, set_lit1, set_lit2, set_lit3, set_lit4, set_lit5]

theorem wipeStep8 :
    elimPairStep .early DEFAULT_CONFIG bersNone 0 wS5 (1, 4) = wS5 := by
  norm_num [elimPairStep, resolveElim, shieldBlocks,
    phaseElimDistance_early_default, phaseGrowthFactor_early_default, default_aggression,
    bersNone, mkDot, mkDotK, mkEv, wipeDots, wipeA, wipeB, wipeC, wipeD, wipeE, wipeF,
    wipeA1, wipeA2, wipeA3, wipeA4, wipeC1, wipeF1, wipeF2,
    ev12, ev31, ev14, ev15, ev16, ev62, ev63, wS1, wS2, wS3, wS4, wS5, wS9, wS12,
    getD_lit0, getD_lit1, getD_lit2, getD_lit3, getD_lit4, getD_lit5,
    set_lit0, set_lit1, set_lit2, set_lit3, set_lit4, set_lit5]

theorem wipeStep9 :
    elimPairStep .early DEFAULT_CONFIG bersNone 0 wS5 (1, 5) = wS9 := by
  norm_num [elimPairStep, resolveElim, shieldBlocks,
    phaseElimDistance_early_default, phaseGrowthFactor_early_default, default_aggression,
    bersNone, mkDot, mkDotK, mkEv, wipeDots, wipeA, wipeB, wipeC, wipeD, wipeE, wipeF,
    wipeA1, wipeA2, wipeA3, wipeA4, wipeC1, wipeF1, wipeF2,
    ev12, ev31, ev14, ev15, ev16, ev62, ev63, wS1, wS2, wS3, wS4, wS5, wS9, wS12,
    getD_lit0, getD_lit1, getD_lit2, getD_lit3, getD_lit4, getD_lit5,
    set_lit0, set_lit1, set_lit2, set_lit3, set_lit4, set_lit5]

theorem wipeStep10 :
    elimPairStep .early DEFAULT_CONFIG bersNone 0 wS9 (2, 3) = wS9 := by
  norm_num [elimPairStep, resolveElim, shieldBlocks,
    phaseElimDistance_early_default, phaseGrowthFactor_early_default, default_aggression,
    bersNone, mkDot, mkDotK, mkEv, wipeDots, wipeA, wipeB, wipeC, wipeD, wipeE, wipeF,
    wipeA1, wipeA2, wipeA3, wipeA4, wipeC1, wipeF1, wipeF2,
    ev12, ev31, ev14, ev15, ev16, ev62, ev63, wS1, wS2, wS3, wS4, wS5, wS9, wS12,
    getD_lit0, getD_lit1, getD_lit2, getD_lit3, getD_lit4, getD_lit5,
    set_lit0, set_lit1, set_lit2, set_lit3, set_lit4, set_lit5]

theorem wipeStep11 :
    elimPairStep .early DEFAULT_CONFIG bersNone 0 wS9 (2, 4) = wS9 := by
  norm_num [elimPairStep, resolveElim, shieldBlocks,
    phaseElimDistance_early_default, phaseGrowthFactor_early_default, default_aggression,
    bersNone, mkDot, mkDotK, mkEv, wipeDots, wipeA, wipeB, wipeC, wipeD, wipeE, wipeF,
    wipeA1, wipeA2, wipeA3, wipeA4, wipeC1, wipeF1, wipeF2,
    ev12, ev31, ev14, ev15, ev16, ev62, ev63, wS1, wS2, wS3, wS4, wS5, wS9, wS12,
    getD_lit0, getD_lit1, getD_lit2, getD_lit3, getD_lit4, getD_lit5,
    set_lit0, set_lit1, set_lit2, set_lit3, set_lit4, set_lit5]

theorem wipeStep12 :
    elimPairStep .early DEFAULT_CONFIG bersNone 0 wS9 (2, 5) = wS12 := by
  norm_num [elimPairStep, resolveElim, shieldBlocks,
    phaseElimDistance_early_default, phaseGrowthFactor_early_default, default_aggression,
    bersNone, mkDot, mkDotK, mkEv, wipeDots, wipeA, wipeB, wipeC, wipeD, wipeE, wipeF,
    wipeA1, wipeA2, wipeA3, wipeA4, wipeC1, wipeF1, wipeF2,
    ev12, ev31, ev14, ev15, ev16, ev62, ev63, wS1, wS2, wS3, wS4, wS5, wS9, wS12,
    getD_lit0, getD_lit1, getD_lit2, getD_lit3, getD_lit4, getD_lit5,
    set_lit0, set_lit1, set_lit2, set_lit3, set_lit4, set_lit5]

theorem wipeStep13 :
    elimPairStep .early DEFAULT_CONFIG bersNone 0 wS12 (3, 4) = wS12 := by
  norm_num [elimPairStep, resolveElim, shieldBlocks,
    phaseElimDistance_early_default, phaseGrowthFactor_early_default, default_aggression,
    bersNone, mkDot, mkDotK, mkEv, wipeDots, wipeA, wipeB, wipeC, wipeD, wipeE, wipeF,
    wipeA1, wipeA2, wipeA3, wipeA4, wipeC1, wipeF1, wipeF2,
    ev12, ev31, ev14, ev15, ev16, ev62, ev63, wS1, wS2, wS3, wS4, wS5, wS9, wS12,
    getD_lit0, getD_lit1, getD_lit2, getD_lit3, getD_lit4, getD_lit5,
    set_lit0, set_lit1, set_lit2, set_lit3, set_lit4, set_lit5]

theorem wipeStep14 :
    elimPairStep .early DEFAULT_CONFIG bersNone 0 wS12 (3, 5) = wS12 := by
  norm_num [elimPairStep, resolveElim, shieldBlocks,
    phaseElimDistance_early_default, phaseGrowthFactor_early_default, default_aggression,
    bersNone, mkDot, mkDotK, mkEv, wipeDots, wipeA, wipeB, wipeC, wipeD, wipeE, wipeF,
    wipeA1, wipeA2, wipeA3, wipeA4, wipeC1, wipeF1, wipeF2,
    ev12, ev31, ev14, ev15, ev16, ev62, ev63, wS1, wS2, wS3, wS4, wS5, wS9, wS12,
    getD_lit0, getD_lit1, getD_lit2, getD_lit3, getD_lit4, getD_lit5,
    set_lit0, set_lit1, set_lit2, set_lit3, set_lit4, set_lit5]

theorem wipeStep15 :
    elimPairStep .early DEFAULT_CONFIG bersNone 0 wS12 (4, 5) = wS12 := by
  norm_num [elimPairStep, resolveElim, shieldBlocks,
    phaseElimDistance_early_default, phaseGrowthFactor_early_default, default_aggression,
    bersNone, mkDot, mkDotK, mkEv, wipeDots, wipeA, wipeB, wipeC, wipeD, wipeE, wipeF,
    wipeA1, wipeA2, wipeA3, wipeA4, wipeC1, wipeF1, wipeF2,
    ev12, ev31, ev14, ev15, ev16, ev62, ev63, wS1, wS2, wS3, wS4, wS5, wS9, wS12,
    getD_lit0, getD_lit1, getD_lit2, getD_lit3, getD_lit4, getD_lit5,
    set_lit0, set_lit1, set_lit2, set_lit3, set_lit4, set_lit5]

theorem checkEliminations_wipe :
    checkEliminations wipeDots .early DEFAULT_CONFIG bersNone 0 = wS12 := by
  have h6 : wipeDots.length = 6 := rfl
  simp only [checkEliminations, h6, pairIndices_six, List.foldl_cons, List.foldl_nil,
    wipeStep1, wipeStep2, wipeStep3, wipeStep4, wipeStep5, wipeStep6, wipeStep7,
    wipeStep8, wipeStep9, wipeStep10, wipeStep11, wipeStep12, wipeStep13, wipeStep14,
    wipeStep15]

theorem range_lit6 : List.range 6 = [0, 1, 2, 3, 4, 5] := rfl

theorem getBattlePhase_start : getBattlePhase 0 120000 = .early := by
  norm_num [getBattlePhase]

theorem moveDots_wipe (pc dt now : ℚ) (r : ℕ → ℚ) :
    moveDots pc dt now r physId wipeDots = wipeDots := by
  simp [moveDots, physId, powerActivationStep, applyPhys, wipeDots,
    wipeA, wipeB, wipeC, wipeD, wipeE, wipeF, mkDot, range_lit6,
    getD_lit0, getD_lit1, getD_lit2, getD_lit3, getD_lit4, getD_lit5,
    set_lit0, set_lit1, set_lit2, set_lit3, set_lit4, set_lit5]

theorem wipeDots_length : wipeDots.length = 6 := rfl

theorem updateFrame_wipe1 :
    updateFrame DEFAULT_CONFIG 120000 bersNone inpW wipeInit =
      { state := wipeAfter, emitted := [wipeAfter], completed := none,
        cont := true } := by
  norm_num [updateFrame, inpW, wipeInit, wipeAfter, getBattlePhase_start,
    moveDots_wipe, checkEliminations_wipe, wipeDots_length, wS12,
    mkDot, mkDotK, mkEv, wipeA4, wipeB, wipeC1, wipeD, wipeE, wipeF2,
    ev12, ev31, ev14, ev15, ev16, ev62, ev63]

theorem updateFrame_wipe2 :
    updateFrame DEFAULT_CONFIG 120000 bersNone inpW wipeAfter =
      { state := wipeAfter, emitted := [wipeAfter], completed := none,
        cont := false } := by
  norm_num [updateFrame, inpW, wipeAfter]

theorem pairIndices_three : pairIndices 3 = [(0, 1), (0, 2), (1, 2)] := rfl

theorem tripStep1 :
    elimPairStep .early DEFAULT_CONFIG bersNone 0 ⟨tripDots, []⟩ (0, 1) = tS1 := by
  norm_num [elimPairStep, resolveElim, shieldBlocks,
    phaseElimDistance_early_default, phaseGrowthFactor_early_default, default_aggression,
    bersNone, mkDot, mkDotK, mkEv, tripDots, tripA, tripB, tripC,
    tripA1, tripA2, tripB1, evab, evac, evbc, tS1, tS2, tS3,
    getD_lit0, getD_lit1, getD_lit2, set_lit0, set_lit1, set_lit2]

theorem tripStep2 :
    elimPairStep .early DEFAULT_CONFIG bersNone 0 tS1 (0, 2) = tS2 := by
  norm_num [elimPairStep, resolveElim, shieldBlocks,
    phaseElimDistance_early_default, phaseGrowthFactor_early_default, default_aggression,
    bersNone, mkDot, mkDotK, mkEv, tripDots, tripA, tripB, tripC,
    tripA1, tripA2, tripB1, evab, evac, evbc, tS1, tS2, tS3,
    getD_lit0, getD_lit1, getD_lit2, set_lit0, set_lit1, set_lit2]

theorem tripStep3 :
    elimPairStep .early DEFAULT_CONFIG bersNone 0 tS2 (1, 2) = tS3 := by
  norm_num [elimPairStep, resolveElim, shieldBlocks,
    phaseElimDistance_early_default, phaseGrowthFactor_early_default, default_aggression,
    bersNone, mkDot, mkDotK, mkEv, tripDots, tripA, tripB, tripC,
    tripA1, tripA2, tripB1, evab, evac, evbc, tS1, tS2, tS3,
    getD_lit0, getD_lit1, getD_lit2, set_lit0, set_lit1, set_lit2]

theorem checkEliminations_trip :
    checkEliminations tripDots .early DEFAULT_CONFIG bersNone 0 = tS3 := by
  have h3 : tripDots.length = 3 := rfl
  simp only [checkEliminations, h3, pairIndices_three, List.foldl_cons, List.foldl_nil,
    tripStep1, tripStep2, tripStep3]

theorem range_lit3 : List.range 3 = [0, 1, 2] := rfl

theorem moveDots_trip (pc dt now : ℚ) (r : ℕ → ℚ) :
    moveDots pc dt now r physId tripDots = tripDots := by
  simp [moveDots, physId, powerActivationStep, applyPhys, tripDots,
    tripA, tripB, tripC, mkDot, range_lit3,
    getD_lit0, getD_lit1, getD_lit2, set_lit0, set_lit1, set_lit2]

theorem tripDots_length : tripDots.length = 3 := rfl

theorem updateFrame_trip :
    updateFrame DEFAULT_CONFIG 120000 bersNone inpW tripInit =
      { state := tripAfter, emitted := [tripAfter], completed := none,
        cont := true } := by
  norm_num [updateFrame, inpW, tripInit, tripAfter, getBattlePhase_start,
    moveDots_trip, checkEliminations_trip, tripDots_length, tS3,
    mkDot, mkDotK, mkEv, tripA2, tripB1, tripC, evab, evac, evbc]
  decide

theorem range_lit2 : List.range 2 = [0, 1] := rfl

theorem pairIndices_two : pairIndices 2 = [(0, 1)] := rfl

theorem getBattlePhase_pow : getBattlePhase 1000 120000 = .early := by
  norm_num [getBattlePhase]

theorem moveDots_pow (pc dt now : ℚ) (r : ℕ → ℚ) :
    moveDots pc dt now r physId powDots = powDots := by
  simp [moveDots, physId, powerActivationStep, applyPhys, powDots,
    powDotA, powDotB, mkDot, range_lit2, getD_lit0, getD_lit1, set_lit0, set_lit1]

theorem checkEliminations_pow (now : ℚ) :
    checkEliminations powDots .early DEFAULT_CONFIG bersNone now = ⟨powDots, []⟩ := by
  have h2 : powDots.length = 2 := rfl
  simp only [checkEliminations, h2, pairIndices_two, List.foldl_cons, List.foldl_nil]
  norm_num [elimPairStep, phaseElimDistance_early_default, powDots, powDotA, powDotB,
    mkDot, getD_lit0, getD_lit1]

theorem powDots_length : powDots.length = 2 := rfl

theorem updateFrame_pow :
    updateFrame DEFAULT_CONFIG 120000 bersNone inpPow powInit =
      { state := powAfter, emitted := [powAfter], completed := none,
        cont := true } := by
  norm_num [updateFrame, inpPow, powInit, powAfter, getBattlePhase_pow,
    moveDots_pow, checkEliminations_pow, powDots_length]

theorem largestDot_cons (d c : Dot) (t : List Dot) :
    largestDot d (c :: t) = largestDot (if c.size > d.size then c else d) t := rfl

theorem largestDot_mem (d : Dot) (rest : List Dot) : largestDot d rest ∈ d :: rest := by
  induction rest generalizing d with
  | nil => simp [largestDot]
  | cons c t ih =>
      rw [largestDot_cons]
      rcases List.mem_cons.mp (ih (if c.size > d.size then c else d)) with h1 | h1
      · by_cases hc : c.size > d.size
        · rw [h1, if_pos hc]; exact List.mem_cons_of_mem _ (List.mem_cons_self _ _)
        · rw [h1, if_neg hc]; exact List.mem_cons_self _ _
      · exact List.mem_cons_of_mem _ (List.mem_cons_of_mem _ h1)

theorem largestDot_le (d : Dot) (rest : List Dot) :
    ∀ e ∈ d :: rest, e.size ≤ (largestDot d rest).size := by
  induction rest generalizing d with
  | nil => intro e he; rw [List.mem_singleton.mp he]; simp [largestDot]
  | cons c t ih =>
      intro e he
      rw [largestDot_cons]
      have hd : d.size ≤ (if c.size > d.size then c else d).size := by
        by_cases hc : c.size > d.size
        · rw [if_pos hc]; exact le_of_lt hc
        · rw [if_neg hc]
      have hc2 : c.size ≤ (if c.size > d.size then c else d).size := by
        by_cases hc : c.size > d.size
        · rw [if_pos hc]
        · rw [if_neg hc]; exact le_of_not_lt hc
      have hhead := ih (if c.size > d.size then c else d) _
        (List.mem_cons_self _ t)
      rcases List.mem_cons.mp he with h1 | h1
      · subst h1; exact le_trans hd hhead
      · rcases List.mem_cons.mp h1 with h2 | h2
        · subst h2; exact le_trans hc2 hhead
        · exact ih (if c.size > d.size then c else d) e (List.mem_cons_of_mem _ h2)

theorem updateFrame_terminal_some (config : BattleConfig) (dur : ℚ) (bers : String → Bool)
    (inp : FrameInput) (st : SimulationState) (d : Dot) (rest : List Dot)
    (hterm : inp.elapsed ≥ dur ∨ st.dots.length ≤ 1)
    (hw : st.winner = none) (hd : st.dots = d :: rest) :
    updateFrame config dur bers inp st =
      { state :=
          { st with
            lastUpdateTime := some inp.now,
            winner := some (largestDot d rest),
            inProgress := false },
        emitted :=
          [{ st with
             lastUpdateTime := some inp.now,
             winner := some (largestDot d rest),
             inProgress := false }],
        completed := some (largestDot d rest), cont := false } := by
  have hterm2 : inp.elapsed ≥ dur ∨ (d :: rest).length ≤ 1 := hd ▸ hterm
  simp only [updateFrame, hd, hw]
  rw [if_pos hterm2]

theorem updateFrame_terminal_empty (config : BattleConfig) (dur : ℚ)
    (bers : String → Bool) (inp : FrameInput) (st : SimulationState)
    (hd : st.dots = []) (hw : st.winner = none) :
    updateFrame config dur bers inp st =
      { state := { st with lastUpdateTime := some inp.now },
        emitted := [{ st with lastUpdateTime := some inp.now }],
        completed := none, cont := false } := by
  have hterm2 : inp.elapsed ≥ dur ∨ ([] : List Dot).length ≤ 1 := by right; simp
  simp only [updateFrame, hd, hw]
  rw [if_pos hterm2]

theorem updateFrame_completed_of_cont (config : BattleConfig) (dur : ℚ)
    (bers : String → Bool) (inp : FrameInput) (st : SimulationState) :
    (updateFrame config dur bers inp st).cont = true →
      (updateFrame config dur bers inp st).completed = none := by
  simp only [updateFrame]
  split
  · intro hc; exact absurd hc (by simp)
  · intro _; rfl

theorem updateFrame_emitted_eq (config : BattleConfig) (dur : ℚ)
    (bers : String → Bool) (inp : FrameInput) (st : SimulationState) :
    (updateFrame config dur bers inp st).emitted =
      [(updateFrame config dur bers inp st).state] := by
  simp only [updateFrame]
  split <;> rfl

theorem runFrames_completions_le_one (config : BattleConfig) (dur : ℚ)
    (bers : String → Bool) (inputs : List FrameInput) (st : SimulationState) :
    ((runFrames config dur bers inputs st).2).length ≤ 1 := by
  induction inputs generalizing st with
  | nil => simp [runFrames]
  | cons inp rest ih =>
      rw [runFrames]
      cases hc : (updateFrame config dur bers inp st).cont with
      | true =>
          have h0 := updateFrame_completed_of_cont config dur bers inp st hc
          simp only [if_pos rfl, h0, Option.toList_none, List.nil_append]
          exact ih _
      | false =>
          simp only [Bool.false_eq_true, if_neg, ite_false]
          cases (updateFrame config dur bers inp st).completed <;> simp

theorem dotIds_length (l : List Dot) : (dotIds l).length = l.length :=
  List.length_map l _

theorem dotIds_cons (a : Dot) (t : List Dot) : dotIds (a :: t) = a.id :: dotIds t := rfl

theorem set_cons_succ_dot (a : Dot) (t : List Dot) (n : ℕ) (x : Dot) :
    (a :: t).set (n + 1) x = a :: t.set n x := rfl

theorem dotIds_set_same (l : List Dot) (i : ℕ) (x : Dot)
    (h : x.id = (l.getD i default).id) : dotIds (l.set i x) = dotIds l := by
  induction l generalizing i with
  | nil => simp
  | cons a t ih =>
      cases i with
      | zero =>
          simp only [List.getD_cons_zero] at h
          simp [dotIds, List.set, h]
      | succ n =>
          simp only [List.getD_cons_succ] at h
          rw [set_cons_succ_dot, dotIds_cons, dotIds_cons, ih n h]

theorem getD_id_mem (l : List Dot) (i : ℕ) (h : i < l.length) :
    (l.getD i default).id ∈ dotIds l := by
  induction l generalizing i with
  | nil => simp at h
  | cons a t ih =>
      cases i with
      | zero => simp [dotIds]
      | succ n =>
          simp only [List.length_cons, Nat.succ_lt_succ_iff] at h
          simp only [List.getD_cons_succ]
          exact List.mem_cons_of_mem _ (ih n h)

theorem resolveElim_dots_ids (phase : BattlePhase) (config : BattleConfig)
    (bers : String → Bool) (now : ℚ) (st : ElimState) (ki vi : ℕ) :
    dotIds (resolveElim phase config bers now st ki vi).dots = dotIds st.dots := by
  simp only [resolveElim]
  split
  · rfl
  · exact dotIds_set_same _ _ _ rfl

theorem elimPairStep_dots_ids (phase : BattlePhase) (config : BattleConfig)
    (bers : String → Bool) (now : ℚ) (st : ElimState) (p : ℕ × ℕ) :
    dotIds (elimPairStep phase config bers now st p).dots = dotIds st.dots := by
  simp only [elimPairStep]
  split
  · split
    · exact resolveElim_dots_ids _ _ _ _ _ _ _
    · split
      · exact resolveElim_dots_ids _ _ _ _ _ _ _
      · rfl
  · rfl

theorem elimPairStep_dots_length (phase : BattlePhase) (config : BattleConfig)
    (bers : String → Bool) (now : ℚ) (st : ElimState) (p : ℕ × ℕ) :
    (elimPairStep phase config bers now st p).dots.length = st.dots.length := by
  have h := elimPairStep_dots_ids phase config bers now st p
  calc (elimPairStep phase config bers now st p).dots.length
      = (dotIds (elimPairStep phase config bers now st p).dots).length :=
        (dotIds_length _).symm
    _ = (dotIds st.dots).length := by rw [h]
    _ = st.dots.length := dotIds_length _

theorem resolveElim_events (phase : BattlePhase) (config : BattleConfig)
    (bers : String → Bool) (now : ℚ) (st : ElimState) (ki vi : ℕ)
    (hk : ki < st.dots.length) (hv : vi < st.dots.length) :
    ∀ e ∈ (resolveElim phase config bers now st ki vi).events,
      e ∈ st.events ∨
        (e.eliminatedId ∈ dotIds st.dots ∧ e.eliminatorId ∈ dotIds st.dots) := by
  simp only [resolveElim]
  split
  · intro e he; exact Or.inl he
  · intro e he
    rcases List.mem_append.mp he with h1 | h1
    · exact Or.inl h1
    · rcases List.mem_singleton.mp h1 with rfl
      exact Or.inr ⟨getD_id_mem _ _ hv, getD_id_mem _ _ hk⟩

theorem elimPairStep_events (phase : BattlePhase) (config : BattleConfig)
    (bers : String → Bool) (now : ℚ) (st : ElimState) (p : ℕ × ℕ)
    (h1 : p.1 < st.dots.length) (h2 : p.2 < st.dots.length) :
    ∀ e ∈ (elimPairStep phase config bers now st p).events,
      e ∈ st.events ∨
        (e.eliminatedId ∈ dotIds st.dots ∧ e.eliminatorId ∈ dotIds st.dots) := by
  intro e he
  simp only [elimPairStep] at he
  split at he
  · split at he
    · exact resolveElim_events _ _ _ _ _ _ _ h1 h2 e he
    · split at he
      · exact resolveElim_events _ _ _ _ _ _ _ h2 h1 e he
      · exact Or.inl he
  · exact Or.inl he

theorem foldl_elim_ids (phase : BattlePhase) (config : BattleConfig)
    (bers : String → Bool) (now : ℚ) (ps : List (ℕ × ℕ)) :
    ∀ st : ElimState,
      dotIds (ps.foldl (elimPairStep phase config bers now) st).dots = dotIds st.dots := by
  induction ps with
  | nil => intro st; rfl
  | cons p t ih =>
      intro st
      rw [List.foldl_cons, ih, elimPairStep_dots_ids]

theorem foldl_elim_events (phase : BattlePhase) (config : BattleConfig)
    (bers : String → Bool) (now : ℚ) (ps : List (ℕ × ℕ)) :
    ∀ st : ElimState,
      (∀ p ∈ ps, p.1 < st.dots.length ∧ p.2 < st.dots.length) →
      ∀ e ∈ (ps.foldl (elimPairStep phase config bers now) st).events,
        e ∈ st.events ∨
          (e.eliminatedId ∈ dotIds st.dots ∧ e.eliminatorId ∈ dotIds st.dots) := by
  induction ps with
  | nil => intro st _ e he; exact Or.inl he
  | cons p t ih =>
      intro st hb e he
      rw [List.foldl_cons] at he
      have hlen := elimPairStep_dots_length phase config bers now st p
      have hids := elimPairStep_dots_ids phase config bers now st p
      have hb2 : ∀ q ∈ t, q.1 < (elimPairStep phase config bers now st p).dots.length ∧
          q.2 < (elimPairStep phase config bers now st p).dots.length := by
        intro q hq
        rw [hlen]
        exact hb q (List.mem_cons_of_mem _ hq)
      rcases ih (elimPairStep phase config bers now st p) hb2 e he with h | h
      · have hp := hb p (List.mem_cons_self _ _)
        exact elimPairStep_events phase config bers now st p hp.1 hp.2 e h
      · rw [hids] at h
        exact Or.inr h

theorem pairIndices_lt (n : ℕ) : ∀ p ∈ pairIndices n, p.1 < n ∧ p.2 < n := by
  intro p hp
  unfold pairIndices at hp
  rw [List.mem_flatMap] at hp
  obtain ⟨i, hi, hmem⟩ := hp
  rw [List.mem_map] at hmem
  obtain ⟨j, hj, rfl⟩ := hmem
  have hin : i < n := List.mem_range.mp hi
  have hjn : j < n := List.mem_range.mp (List.mem_of_mem_drop hj)
  exact ⟨hin, hjn⟩

theorem checkEliminations_ids (dots : List Dot) (phase : BattlePhase)
    (config : BattleConfig) (bers : String → Bool) (now : ℚ) :
    dotIds (checkEliminations dots phase config bers now).dots = dotIds dots :=
  foldl_elim_ids phase config bers now (pairIndices dots.length) ⟨dots, []⟩

theorem checkEliminations_dots_length (dots : List Dot) (phase : BattlePhase)
    (config : BattleConfig) (bers : String → Bool) (now : ℚ) :
    (checkEliminations dots phase config bers now).dots.length = dots.length := by
  have h := checkEliminations_ids dots phase config bers now
  calc (checkEliminations dots phase config bers now).dots.length
      = (dotIds (checkEliminations dots phase config bers now).dots).length :=
        (dotIds_length _).symm
    _ = (dotIds dots).length := by rw [h]
    _ = dots.length := dotIds_length _

theorem checkEliminations_events (dots : List Dot) (phase : BattlePhase)
    (config : BattleConfig) (bers : String → Bool) (now : ℚ) :
    ∀ e ∈ (checkEliminations dots phase config bers now).events,
      e.eliminatedId ∈ dotIds dots ∧ e.eliminatorId ∈ dotIds dots := by
  intro e he
  have h := foldl_elim_events phase config bers now (pairIndices dots.length)
    ⟨dots, []⟩ (fun p hp => pairIndices_lt dots.length p hp) e he
  rcases h with h | h
  · simp at h
  · exact h

theorem powerActivationStep_id (pc dt now r : ℚ) (d : Dot) :
    (powerActivationStep pc dt now r d).id = d.id := by
  simp only [powerActivationStep]
  split
  · split <;> rfl
  · rfl

theorem applyPhys_id (f : List Dot → ℕ → Dot → ℚ × ℚ × ℚ) (dots : List Dot)
    (i : ℕ) (d : Dot) : (applyPhys f dots i d).id = d.id := rfl

theorem foldl_set_ids (f : List Dot → ℕ → Dot → ℚ × ℚ × ℚ) (pc dt now : ℚ)
    (r : ℕ → ℚ) (idxs : List ℕ) :
    ∀ acc : List Dot,
      dotIds (idxs.foldl (fun acc i =>
        acc.set i (applyPhys f acc i (powerActivationStep pc dt now (r i)
          (acc.getD i default)))) acc) = dotIds acc := by
  induction idxs with
  | nil => intro acc; rfl
  | cons i t ih =>
      intro acc
      rw [List.foldl_cons, ih]
      exact dotIds_set_same _ _ _ (by rw [applyPhys_id, powerActivationStep_id])

theorem moveDots_ids (pc dt now : ℚ) (r : ℕ → ℚ)
    (f : List Dot → ℕ → Dot → ℚ × ℚ × ℚ) (dots : List Dot) :
    dotIds (moveDots pc dt now r f dots) = dotIds dots := by
  unfold moveDots
  exact foldl_set_ids f pc dt now r (List.range dots.length) dots

theorem moveDots_length (pc dt now : ℚ) (r : ℕ → ℚ)
    (f : List Dot → ℕ → Dot → ℚ × ℚ × ℚ) (dots : List Dot) :
    (moveDots pc dt now r f dots).length = dots.length := by
  have h := moveDots_ids pc dt now r f dots
  calc (moveDots pc dt now r f dots).length
      = (dotIds (moveDots pc dt now r f dots)).length := (dotIds_length _).symm
    _ = (dotIds dots).length := by rw [h]
    _ = dots.length := dotIds_length _

theorem idSet_cons (d : Dot) (t : List Dot) :
    idSet (d :: t) = insert d.id (idSet t) := by
  simp [idSet, dotIds]

theorem any_eliminated_decide (evs : List EliminationEvent) (d : Dot) :
    evs.any (fun e => e.eliminatedId == d.id) = decide (d.id ∈ elimIdSet evs) := by
  induction evs with
  | nil => simp [elimIdSet, elimIds]
  | cons e t ih =>
      have hset : elimIdSet (e :: t) = insert e.eliminatedId (elimIdSet t) := by
        simp [elimIdSet, elimIds]
      rw [List.any_cons, ih, hset]
      have hbeq : (e.eliminatedId == d.id) = decide (d.id = e.eliminatedId) := by
        by_cases h1 : d.id = e.eliminatedId
        · simp [h1]
        · have h1s : ¬(e.eliminatedId = d.id) := fun hh => h1 hh.symm
          simp [h1, h1s]
      rw [hbeq]
      by_cases h1 : d.id = e.eliminatedId
      · simp [Finset.mem_insert, h1]
      · by_cases h2 : d.id ∈ elimIdSet t <;> simp [Finset.mem_insert, h1, h2]

theorem filter_elim_eq (l : List Dot) (evs : List EliminationEvent) :
    l.filter (fun d => !evs.any (fun e => e.eliminatedId == d.id)) =
      l.filter (fun d => !decide (d.id ∈ elimIdSet evs)) := by
  apply List.filter_congr
  intro d _
  rw [any_eliminated_decide]

theorem filter_ids_length (l : List Dot) (E : Finset String)
    (hnd : (dotIds l).Nodup) (hsub : E ⊆ idSet l) :
    (l.filter (fun d => !decide (d.id ∈ E))).length + E.card = l.length := by
  induction l generalizing E with
  | nil =>
      have hE : E = ∅ := by
        apply Finset.eq_empty_of_forall_not_mem
        intro x hx
        have hmem := hsub hx
        simp [idSet, dotIds] at hmem
      simp [hE]
  | cons d t ih =>
      rw [dotIds_cons, List.nodup_cons] at hnd
      obtain ⟨hdid, hndt⟩ := hnd
      by_cases hd : d.id ∈ E
      · have hpred : (!decide (d.id ∈ E)) = false := by simp [hd]
        rw [List.filter_cons, hpred]
        simp only [Bool.false_eq_true, if_false]
        have hcong : t.filter (fun x => !decide (x.id ∈ E)) =
            t.filter (fun x => !decide (x.id ∈ E.erase d.id)) := by
          apply List.filter_congr
          intro x hx
          have hne : x.id ≠ d.id := by
            intro hxe
            exact hdid (hxe ▸ List.mem_map_of_mem _ hx)
          by_cases hmem : x.id ∈ E
          · simp [hmem, Finset.mem_erase, hne]
          · simp [hmem, Finset.mem_erase]
        have hsub2 : E.erase d.id ⊆ idSet t := by
          intro x hx
          rw [Finset.mem_erase] at hx
          have hmem := hsub hx.2
          rw [idSet_cons, Finset.mem_insert] at hmem
          rcases hmem with hmem | hmem
          · exact absurd hmem hx.1
          · exact hmem
        have hih := ih (E.erase d.id) hndt hsub2
        have hcard : (E.erase d.id).card + 1 = E.card :=
          Finset.card_erase_add_one hd
        rw [hcong, List.length_cons]
        omega
      · have hpred : (!decide (d.id ∈ E)) = true := by simp [hd]
        rw [List.filter_cons, hpred]
        simp only [if_true]
        have hsub2 : E ⊆ idSet t := by
          intro x hx
          have hmem := hsub hx
          rw [idSet_cons, Finset.mem_insert] at hmem
          rcases hmem with hmem | hmem
          · exact absurd (hmem ▸ hx) hd
          · exact hmem
        have hih := ih E hndt hsub2
        simp only [List.length_cons]
        omega

theorem nodup_filter_ids (l : List Dot) (p : Dot → Bool)
    (h : (dotIds l).Nodup) : (dotIds (l.filter p)).Nodup := by
  have hsub : List.Sublist (List.map (fun d : Dot => d.id) (l.filter p))
      (List.map (fun d : Dot => d.id) l) :=
    List.Sublist.map (fun d : Dot => d.id) (List.filter_sublist l)
  simp only [dotIds] at h ⊢
  exact hsub.nodup h

theorem idSet_filter_subset (l : List Dot) (p : Dot → Bool) :
    idSet (l.filter p) ⊆ idSet l := by
  intro x hx
  simp only [idSet, dotIds, List.mem_toFinset] at hx ⊢
  exact (List.Sublist.map (fun d : Dot => d.id) (List.filter_sublist l)).subset hx

theorem elimIdSet_append (l1 l2 : List EliminationEvent) :
    elimIdSet (l1 ++ l2) = elimIdSet l1 ∪ elimIdSet l2 := by
  simp [elimIdSet, elimIds]

theorem elimIdSet_events_subset (dots : List Dot) (phase : BattlePhase)
    (config : BattleConfig) (bers : String → Bool) (now : ℚ) :
    elimIdSet (checkEliminations dots phase config bers now).events ⊆ idSet dots := by
  intro x hx
  simp only [elimIdSet, elimIds, List.mem_toFinset, List.mem_map] at hx
  obtain ⟨e, he, rfl⟩ := hx
  exact List.mem_toFinset.mpr (checkEliminations_events dots phase config bers now e he).1

theorem idSet_eq_of_dotIds_eq {l1 l2 : List Dot} (h : dotIds l1 = dotIds l2) :
    idSet l1 = idSet l2 := by
  simp only [idSet, h]

theorem mem_filter_not_elim (l : List Dot) (E : Finset String) (x : String)
    (hx : x ∈ idSet (l.filter (fun d => !decide (d.id ∈ E)))) : x ∉ E := by
  simp only [idSet, dotIds, List.mem_toFinset, List.mem_map] at hx
  obtain ⟨d, hdl, rfl⟩ := hx
  rw [List.mem_filter] at hdl
  simpa using hdl.2

theorem conserved_after_elims (n0 : ℕ) (st : SimulationState) (dots1 : List Dot)
    (phase : BattlePhase) (config : BattleConfig) (bers : String → Bool)
    (now : ℚ) (t : Option ℚ)
    (hids : dotIds dots1 = dotIds st.dots) (h : conserved n0 st) :
    conserved n0
      (if (checkEliminations dots1 phase config bers now).events.length > 0 then
        { st with
          dots := (checkEliminations dots1 phase config bers now).dots.filter
            (fun d => !(checkEliminations dots1 phase config bers now).events.any
              (fun e => e.eliminatedId == d.id)),
          eliminationLog :=
            st.eliminationLog ++ (checkEliminations dots1 phase config bers now).events,
          lastUpdateTime := t }
      else
        { st with dots := (checkEliminations dots1 phase config bers now).dots,
                  lastUpdateTime := t }) := by
  obtain ⟨hnd, hdisj, hsum⟩ := h
  have hids2 : dotIds (checkEliminations dots1 phase config bers now).dots =
      dotIds st.dots := by
    rw [checkEliminations_ids]; exact hids
  have hnd2 : (dotIds (checkEliminations dots1 phase config bers now).dots).Nodup := by
    rw [hids2]; exact hnd
  have hlen2 : (checkEliminations dots1 phase config bers now).dots.length =
      st.dots.length := by
    rw [← dotIds_length, hids2, dotIds_length]
  have hidset : idSet (checkEliminations dots1 phase config bers now).dots =
      idSet st.dots := idSet_eq_of_dotIds_eq hids2
  have hsubE : elimIdSet (checkEliminations dots1 phase config bers now).events ⊆
      idSet st.dots := by
    intro x hx
    have h1 := elimIdSet_events_subset dots1 phase config bers now hx
    rwa [idSet_eq_of_dotIds_eq hids] at h1
  have hsubE2 : elimIdSet (checkEliminations dots1 phase config bers now).events ⊆
      idSet (checkEliminations dots1 phase config bers now).dots := by
    rw [hidset]; exact hsubE
  have hdisjLE : Disjoint (elimIdSet st.eliminationLog)
      (elimIdSet (checkEliminations dots1 phase config bers now).events) :=
    Finset.disjoint_of_subset_right hsubE hdisj.symm
  split
  · rw [filter_elim_eq]
    refine ⟨nodup_filter_ids _ _ hnd2, ?_, ?_⟩
    · show Disjoint
        (idSet ((checkEliminations dots1 phase config bers now).dots.filter
          (fun d => !decide (d.id ∈
            elimIdSet (checkEliminations dots1 phase config bers now).events))))
        (elimIdSet (st.eliminationLog ++
          (checkEliminations dots1 phase config bers now).events))
      rw [elimIdSet_append]
      refine Finset.disjoint_union_right.mpr ⟨?_, ?_⟩
      · exact Finset.disjoint_of_subset_left
          ((idSet_filter_subset _ _).trans (le_of_eq hidset)) hdisj
      · exact Finset.disjoint_left.mpr (fun x hx => mem_filter_not_elim _ _ _ hx)
    · show ((checkEliminations dots1 phase config bers now).dots.filter
          (fun d => !decide (d.id ∈
            elimIdSet (checkEliminations dots1 phase config bers now).events))).length +
        (elimIdSet (st.eliminationLog ++
          (checkEliminations dots1 phase config bers now).events)).card = n0
      rw [elimIdSet_append, Finset.card_union_of_disjoint hdisjLE]
      have hfl := filter_ids_length (checkEliminations dots1 phase config bers now).dots
        (elimIdSet (checkEliminations dots1 phase config bers now).events) hnd2 hsubE2
      omega
  · refine ⟨hnd2, ?_, ?_⟩
    · show Disjoint (idSet (checkEliminations dots1 phase config bers now).dots)
        (elimIdSet st.eliminationLog)
      rw [hidset]; exact hdisj
    · show (checkEliminations dots1 phase config bers now).dots.length +
        (elimIdSet st.eliminationLog).card = n0
      rw [hlen2]; exact hsum

theorem updateFrame_conserved (config : BattleConfig) (dur : ℚ)
    (bers : String → Bool) (inp : FrameInput) (st : SimulationState) (n0 : ℕ)
    (h : conserved n0 st) :
    conserved n0 (updateFrame config dur bers inp st).state := by
  simp only [updateFrame]
  split
  · split
    · exact ⟨h.1, h.2.1, h.2.2⟩
    · exact ⟨h.1, h.2.1, h.2.2⟩
  · exact conserved_after_elims n0
      { st with lastUpdateTime := some inp.now } _
      (getBattlePhase inp.elapsed dur) config bers inp.now (some inp.now)
      (moveDots_ids _ _ _ _ _ _) ⟨h.1, h.2.1, h.2.2⟩

theorem runFrames_conserved (config : BattleConfig) (dur : ℚ) (bers : String → Bool)
    (inputs : List FrameInput) :
    ∀ (st : SimulationState) (n0 : ℕ), conserved n0 st →
      ∀ snap ∈ (runFrames config dur bers inputs st).1, conserved n0 snap := by
  induction inputs with
  | nil => intro st n0 _ snap hsnap; simp [runFrames] at hsnap
  | cons inp rest ih =>
      intro st n0 h snap hsnap
      rw [runFrames] at hsnap
      have hstate := updateFrame_conserved config dur bers inp st n0 h
      have hemit := updateFrame_emitted_eq config dur bers inp st
      cases hc : (updateFrame config dur bers inp st).cont with
      | true =>
          rw [hc] at hsnap
          simp only [if_true] at hsnap
          rw [hemit] at hsnap
          rcases List.mem_append.mp hsnap with h1 | h1
          · rw [List.mem_singleton.mp h1]; exact hstate
          · exact ih _ n0 hstate snap h1
      | false =>
          rw [hc] at hsnap
          simp only [Bool.false_eq_true, if_false] at hsnap
          rw [hemit] at hsnap
          rw [List.mem_singleton.mp hsnap]
          exact hstate

theorem powerActivationStep_active (pc dt now r : ℚ) (d : Dot) (p : DotPower)
    (hp : d.power = some p) (ha : p.active = true) :
    powerActivationStep pc dt now r d = d := by
  simp only [powerActivationStep, hp]
  rw [if_neg]
  simp [ha]

theorem applyPhys_power (f : List Dot → ℕ → Dot → ℚ × ℚ × ℚ) (dots : List Dot)
    (i : ℕ) (d : Dot) : (applyPhys f dots i d).power = d.power := rfl

theorem speedOf_pair (a b : ℝ) : speedOf (a, b) = Real.sqrt (a * a + b * b) := rfl

theorem limitVelocity_speed_le (v : ℝ × ℝ) (m : ℝ) (hm : 0 ≤ m) :
    speedOf (limitVelocity v m) ≤ m := by
  simp only [limitVelocity]
  by_cases h : speedOf v > m
  · rw [if_pos h]
    have hS : 0 ≤ v.1 * v.1 + v.2 * v.2 := by nlinarith [sq_nonneg v.1, sq_nonneg v.2]
    have hspos : 0 < speedOf v := lt_of_le_of_lt hm h
    have hss : speedOf v * speedOf v = v.1 * v.1 + v.2 * v.2 :=
      Real.mul_self_sqrt hS
    have hsne : speedOf v ≠ 0 := ne_of_gt hspos
    have hexpr : (v.1 / speedOf v * m) * (v.1 / speedOf v * m) +
        (v.2 / speedOf v * m) * (v.2 / speedOf v * m) = m * m := by
      have h2 : (v.1 / speedOf v * m) * (v.1 / speedOf v * m) +
          (v.2 / speedOf v * m) * (v.2 / speedOf v * m) =
          (v.1 * v.1 + v.2 * v.2) * ((m / speedOf v) * (m / speedOf v)) := by
        ring
      rw [h2, ← hss]
      field_simp
    rw [speedOf_pair, hexpr, Real.sqrt_mul_self hm]
  · rw [if_neg h]
    exact le_of_not_lt h

/-- Claim C1 (counterexample): on the six-dot roster `wipeDots` with the
default configuration, the first frame eliminates every active dot, and the
following frame takes the termination branch with an empty active set: no
winner is ever set, `inProgress` stays true, `onComplete` is never invoked,
and no further frame is scheduled — refuting both "the active set never
becomes empty" and "onComplete fires exactly once". -/
theorem wipe_defeats_termination :
    (updateFrame DEFAULT_CONFIG 120000 bersNone inpW wipeInit).state.dots = [] ∧
    (updateFrame DEFAULT_CONFIG 120000 bersNone inpW wipeAfter).state.winner = none ∧
    (updateFrame DEFAULT_CONFIG 120000 bersNone inpW wipeAfter).state.inProgress = true ∧
    (updateFrame DEFAULT_CONFIG 120000 bersNone inpW wipeAfter).completed = none ∧
    (updateFrame DEFAULT_CONFIG 120000 bersNone inpW wipeAfter).cont = false ∧
    (runFrames DEFAULT_CONFIG 120000 bersNone [inpW, inpW] wipeInit).2 = [] := by
  refine ⟨?_, ?_, ?_, ?_, ?_, ?_⟩
  · rw [updateFrame_wipe1]; rfl
  · rw [updateFrame_wipe2]; rfl
  · rw [updateFrame_wipe2]; rfl
  · rw [updateFrame_wipe2]
  · rw [updateFrame_wipe2]
  · simp [runFrames, updateFrame_wipe1, updateFrame_wipe2]

/-- Claim C1 (amended): when the termination condition triggers at a frame
whose active set is nonempty (and no winner is set yet), that frame sets the
winner to the largest remaining dot, clears `inProgress`, invokes
`onComplete` with the winner and schedules no further frame; moreover across
any run the completion callback is invoked at most once.  (The unamended
claim fails because the active set can become empty, see the
counterexample.) -/
theorem terminal_nonempty_completes :
    (∀ (config : BattleConfig) (dur : ℚ) (bers : String → Bool) (inp : FrameInput)
      (st : SimulationState) (d : Dot) (rest : List Dot),
      (inp.elapsed ≥ dur ∨ st.dots.length ≤ 1) → st.winner = none →
      st.dots = d :: rest →
      ((updateFrame config dur bers inp st).state.winner = some (largestDot d rest) ∧
       (updateFrame config dur bers inp st).state.inProgress = false ∧
       (updateFrame config dur bers inp st).completed = some (largestDot d rest) ∧
       (updateFrame config dur bers inp st).cont = false)) ∧
    (∀ (config : BattleConfig) (dur : ℚ) (bers : String → Bool)
      (inputs : List FrameInput) (st : SimulationState),
      ((runFrames config dur bers inputs st).2).length ≤ 1) := by
  constructor
  · intro config dur bers inp st d rest hterm hw hd
    have h := updateFrame_terminal_some config dur bers inp st d rest hterm hw hd
    rw [h]
    exact ⟨rfl, rfl, rfl, rfl⟩
  · exact runFrames_completions_le_one

/-- Witness for the amended C1 at a two-dot roster at time expiry. -/
theorem terminal_nonempty_completes_witness :
    (updateFrame DEFAULT_CONFIG 120000 bersNone inpEnd pairState).completed =
      some (largestDot pairDotA [pairDotB]) ∧
    ((runFrames DEFAULT_CONFIG 120000 bersNone [] pairState).2).length ≤ 1 := by
  have h := terminal_nonempty_completes
  refine ⟨?_, h.2 DEFAULT_CONFIG 120000 bersNone [] pairState⟩
  exact (h.1 DEFAULT_CONFIG 120000 bersNone inpEnd pairState pairDotA [pairDotB]
    (Or.inl (by norm_num [inpEnd])) rfl rfl).2.2.1

/-- Claim C2 (counterexample): in the three-dot roster `tripDots`, within a
single frame the id "b" appears both as an eliminated id and (later in the
same pass) as an eliminator, and the id "c" is eliminated twice; the frame
appends both duplicates to the battle log — refuting "an entity already
eliminated this frame is skipped" and "the log never contains a duplicate
eliminated id". -/
theorem same_frame_double_elimination :
    ((checkEliminations tripDots .early DEFAULT_CONFIG bersNone 0).events.map
      (fun e => e.eliminatedId) = ["b", "c", "c"]) ∧
    ((checkEliminations tripDots .early DEFAULT_CONFIG bersNone 0).events.map
      (fun e => e.eliminatorId) = ["a", "a", "b"]) ∧
    (updateFrame DEFAULT_CONFIG 120000 bersNone inpW tripInit).state.eliminationLog.map
      (fun e => e.eliminatedId) = ["b", "c", "c"] := by
  refine ⟨?_, ?_, ?_⟩
  · rw [checkEliminations_trip]; rfl
  · rw [checkEliminations_trip]; rfl
  · rw [updateFrame_trip]; rfl

/-- Claim C2 (amended): within one frame an already-eliminated dot is not
skipped (see counterexample), but across frames eliminated ids stay
removed: a frame started from a state whose active ids are distinct and
disjoint from the logged eliminated ids ends in a state with the same two
properties, so an id logged as eliminated never reappears in the active set
of any later frame. -/
theorem eliminated_ids_stay_removed (config : BattleConfig) (dur : ℚ)
    (bers : String → Bool) (inp : FrameInput) (st : SimulationState)
    (h1 : (dotIds st.dots).Nodup)
    (h2 : Disjoint (idSet st.dots) (elimIdSet st.eliminationLog)) :
    (dotIds (updateFrame config dur bers inp st).state.dots).Nodup ∧
    Disjoint (idSet (updateFrame config dur bers inp st).state.dots)
      (elimIdSet (updateFrame config dur bers inp st).state.eliminationLog) := by
  have h := updateFrame_conserved config dur bers inp st
    (st.dots.length + (elimIdSet st.eliminationLog).card) ⟨h1, h2, rfl⟩
  exact ⟨h.1, h.2.1⟩

/-- Witness for the amended C2 on the three-dot roster. -/
theorem eliminated_ids_stay_removed_witness :
    (dotIds tripInit.dots).Nodup ∧
    ((dotIds (updateFrame DEFAULT_CONFIG 120000 bersNone inpW tripInit).state.dots).Nodup ∧
     Disjoint (idSet (updateFrame DEFAULT_CONFIG 120000 bersNone inpW tripInit).state.dots)
       (elimIdSet (updateFrame DEFAULT_CONFIG 120000 bersNone inpW tripInit).state.eliminationLog)) := by
  refine ⟨by decide, ?_⟩
  exact eliminated_ids_stay_removed DEFAULT_CONFIG 120000 bersNone inpW tripInit
    (by decide) (by simp [tripInit, elimIdSet, elimIds])

/-- Claim C3: if the battle ends by time expiry (elapsed ≥ duration) with the
active set nonempty, the winner declared by the terminal frame is the active
dot of maximal size; in particular it is a member of the active set and no
active dot is larger. -/
theorem timeout_winner_is_largest (config : BattleConfig) (dur : ℚ)
    (bers : String → Bool) (inp : FrameInput) (st : SimulationState)
    (d : Dot) (rest : List Dot)
    (htime : inp.elapsed ≥ dur) (_hmore : 1 < st.dots.length)
    (hw : st.winner = none) (hd : st.dots = d :: rest) :
    (updateFrame config dur bers inp st).state.winner = some (largestDot d rest) ∧
    (updateFrame config dur bers inp st).completed = some (largestDot d rest) ∧
    largestDot d rest ∈ st.dots ∧
    (∀ e ∈ st.dots, e.size ≤ (largestDot d rest).size) := by
  have h := updateFrame_terminal_some config dur bers inp st d rest (Or.inl htime) hw hd
  rw [h]
  refine ⟨rfl, rfl, ?_, ?_⟩
  · rw [hd]; exact largestDot_mem d rest
  · rw [hd]; exact largestDot_le d rest

/-- Witness for C3: three dots of sizes 5, 12 and 8 at expiry — the size-12
dot is declared winner. -/
theorem timeout_winner_is_largest_witness :
    (updateFrame DEFAULT_CONFIG 120000 bersNone inpEnd timeoutState).state.winner =
      some sizeDotY := by
  have h := timeout_winner_is_largest DEFAULT_CONFIG 120000 bersNone inpEnd timeoutState
    sizeDotX [sizeDotY, sizeDotZ] (by norm_num [inpEnd]) (by norm_num [timeoutState])
    rfl rfl
  rw [h.1]
  norm_num [largestDot, sizeDotX, sizeDotY, sizeDotZ, mkDot]

/-- Claim C4: for a pair of dots meeting the collision condition in
`checkEliminations`, if the strictly smaller dot holds an active shield
power then the pair check changes nothing: no event is recorded, the larger
dot's size and elimination counter are untouched, and both dots survive the
pair check (the pair step returns the elimination state unchanged). -/
theorem shield_suppresses_elimination (phase : BattlePhase) (config : BattleConfig)
    (bers : String → Bool) (now : ℚ) (st : ElimState) (p : ℕ × ℕ) (d1 d2 : Dot)
    (hd1 : st.dots.getD p.1 default = d1) (hd2 : st.dots.getD p.2 default = d2)
    (hcol : 0 < max d1.size d2.size + phaseElimDistance phase config ∧
      (d2.x - d1.x) * (d2.x - d1.x) + (d2.y - d1.y) * (d2.y - d1.y) <
        (max d1.size d2.size + phaseElimDistance phase config) *
          (max d1.size d2.size + phaseElimDistance phase config))
    (hshield : (d1.size < d2.size ∧ shieldBlocks d1 = true) ∨
               (d2.size < d1.size ∧ shieldBlocks d2 = true)) :
    elimPairStep phase config bers now st p = st := by
  simp only [elimPairStep, hd1, hd2]
  rw [if_pos hcol]
  split
  · rename_i hgt
    rcases hshield with ⟨hlt, _⟩ | ⟨_, hs⟩
    · exact absurd hgt.1 (lt_asymm hlt)
    · simp only [resolveElim, hd2, hs]
      exact if_pos True.intro
  · split
    · rename_i hgt
      rcases hshield with ⟨_, hs⟩ | ⟨hlt, _⟩
      · simp only [resolveElim, hd1, hs]
        exact if_pos True.intro
      · exact absurd hgt.1 (lt_asymm hlt)
    · rfl

/-- Witness for C4: a size-10 dot in contact with a shielded size-5 dot —
the pair step leaves the state unchanged. -/
theorem shield_suppresses_elimination_witness :
    shieldBlocks shieldSmall = true ∧ shieldSmall.size < shieldBig.size ∧
    elimPairStep .early DEFAULT_CONFIG bersNone 0 shieldState (0, 1) = shieldState := by
  refine ⟨rfl, by norm_num [shieldSmall, shieldBig, mkDot], ?_⟩
  exact shield_suppresses_elimination .early DEFAULT_CONFIG bersNone 0 shieldState
    (0, 1) shieldBig shieldSmall rfl rfl
    (by constructor <;>
      norm_num [shieldBig, shieldSmall, mkDot, phaseElimDistance_early_default])
    (Or.inr ⟨by norm_num [shieldSmall, shieldBig, mkDot], rfl⟩)

/-- Claim C5 (counterexample): an empty roster is not rejected before any
frame runs: the first frame executes normally, emits a snapshot, and
mutates the state (`lastUpdateTime` is written) — there is no validation of
the roster anywhere in `generateSimulation`. -/
theorem empty_roster_not_rejected :
    (updateFrame DEFAULT_CONFIG 120000 bersNone inpW emptyInit).emitted.length = 1 ∧
    (updateFrame DEFAULT_CONFIG 120000 bersNone inpW emptyInit).state.lastUpdateTime =
      some 0 := by
  have h := updateFrame_terminal_empty DEFAULT_CONFIG 120000 bersNone inpW emptyInit
    rfl rfl
  rw [h]
  exact ⟨rfl, rfl⟩

/-- Claim C5 (amended): the engine performs no construction-time validation
at all — for every state, including an empty roster or one with duplicate
ids, the frame runs and emits exactly one snapshot; no rejection path
exists. -/
theorem every_frame_emits_one_snapshot (config : BattleConfig) (dur : ℚ)
    (bers : String → Bool) (inp : FrameInput) (st : SimulationState) :
    (updateFrame config dur bers inp st).emitted.length = 1 := by
  rw [updateFrame_emitted_eq]
  rfl

/-- Claim C6: a roster of exactly one dot completes on its first frame: that
dot is declared winner, the elimination log stays empty, the final snapshot
is emitted and `onComplete` receives the dot; no further frame is
scheduled. -/
theorem single_dot_completes_immediately (config : BattleConfig) (dur : ℚ)
    (bers : String → Bool) (inp : FrameInput) (st : SimulationState) (d : Dot)
    (hd : st.dots = [d]) (hw : st.winner = none) (hlog : st.eliminationLog = []) :
    (updateFrame config dur bers inp st).completed = some d ∧
    (updateFrame config dur bers inp st).state.winner = some d ∧
    (updateFrame config dur bers inp st).state.inProgress = false ∧
    (updateFrame config dur bers inp st).state.eliminationLog = [] ∧
    (updateFrame config dur bers inp st).emitted =
      [(updateFrame config dur bers inp st).state] ∧
    (updateFrame config dur bers inp st).cont = false := by
  have h := updateFrame_terminal_some config dur bers inp st d []
    (Or.inr (by rw [hd]; simp)) hw hd
  rw [h]
  exact ⟨rfl, rfl, rfl, hlog, rfl, rfl⟩

/-- Witness for C6 on a concrete one-dot roster. -/
theorem single_dot_completes_immediately_witness :
    (updateFrame DEFAULT_CONFIG 120000 bersNone inpW soloInit).completed =
      some soloDot ∧
    (updateFrame DEFAULT_CONFIG 120000 bersNone inpW soloInit).state.winner =
      some soloDot ∧
    (updateFrame DEFAULT_CONFIG 120000 bersNone inpW soloInit).state.inProgress = false ∧
    (updateFrame DEFAULT_CONFIG 120000 bersNone inpW soloInit).state.eliminationLog = [] ∧
    (updateFrame DEFAULT_CONFIG 120000 bersNone inpW soloInit).emitted =
      [(updateFrame DEFAULT_CONFIG 120000 bersNone inpW soloInit).state] ∧
    (updateFrame DEFAULT_CONFIG 120000 bersNone inpW soloInit).cont = false :=
  single_dot_completes_immediately DEFAULT_CONFIG 120000 bersNone inpW soloInit
    soloDot rfl rfl rfl

/-- Claim C7 (counterexample): the end-of-movement velocity clamp enforces
no minimum: the zero velocity passes through `limitVelocity` unchanged, its
magnitude 0 lying below every positive floor (in particular below 3, the
only minimum-speed constant anywhere in the repository's engines) — the
claimed "configured minimum magnitude" does not exist in this engine. -/
theorem no_minimum_speed_clamp :
    limitVelocity (0, 0) 8 = (0, 0) ∧ speedOf (0, 0) = 0 ∧ ((0:ℝ) < 3) := by
  have hz : speedOf ((0:ℝ), (0:ℝ)) = 0 := by
    rw [speedOf_pair]
    norm_num
  refine ⟨?_, hz, by norm_num⟩
  simp only [limitVelocity]
  rw [if_neg]
  rw [hz]
  norm_num

/-- Claim C7 (amended): the clamp at the end of the movement step bounds the
velocity magnitude above by the phase-dependent maximum (rescaling
proportionally when exceeded); there is no lower bound. -/
theorem speed_clamped_above (v : ℝ × ℝ) (m : ℝ) (hm : 0 ≤ m) :
    speedOf (limitVelocity v m) ≤ m :=
  limitVelocity_speed_le v m hm

/-- Witness for the amended C7 at velocity (3, 4) and maximum 8. -/
theorem speed_clamped_above_witness :
    (0:ℝ) ≤ 8 ∧ speedOf (limitVelocity (3, 4) 8) ≤ 8 :=
  ⟨by norm_num, speed_clamped_above (3, 4) 8 (by norm_num)⟩

/-- Claim C8 (counterexample): a frame executed 1000ms after a power with a
5ms duration was activated leaves the power active in the emitted state —
the frame step performs no time-based deactivation (the source relies on a
fire-and-forget `setTimeout`), refuting "a power is never observed active
after its duration has elapsed". -/
theorem expired_power_still_active :
    ((updateFrame DEFAULT_CONFIG 120000 bersNone inpPow powInit).state.dots.getD 0
      default).power =
      some { type := .grow, duration := 5, active := true, cooldown := 8,
             lastUsed := 0 } ∧
    inpPow.now - (0:ℚ) ≥ 5 := by
  constructor
  · rw [updateFrame_pow]; rfl
  · norm_num [inpPow]

/-- Claim C8 (amended): the per-dot frame step never deactivates a power: a
dot whose power is active keeps exactly the same power record through the
activation check and the movement block, no matter how much time has
passed; deactivation happens only through the external `setTimeout` timer,
outside the frame loop. -/
theorem frame_step_never_deactivates_power (pc dt now r : ℚ)
    (f : List Dot → ℕ → Dot → ℚ × ℚ × ℚ) (dots : List Dot) (i : ℕ)
    (d : Dot) (p : DotPower) (hp : d.power = some p) (ha : p.active = true) :
    (applyPhys f dots i (powerActivationStep pc dt now r d)).power = some p := by
  rw [applyPhys_power, powerActivationStep_active pc dt now r d p hp ha, hp]

/-- Witness for the amended C8 on a concrete dot with an active power. -/
theorem frame_step_never_deactivates_power_witness :
    powDotA.power = some ⟨.grow, 5, true, 8, 0⟩ ∧
    (applyPhys physId powDots 0 (powerActivationStep 1 1 1000 1 powDotA)).power =
      some ⟨.grow, 5, true, 8, 0⟩ :=
  ⟨rfl, frame_step_never_deactivates_power 1 1 1000 1 physId powDots 0 powDotA
    ⟨.grow, 5, true, 8, 0⟩ rfl rfl⟩

/-- Claim C9: starting from a roster with distinct ids and an empty
elimination log, every snapshot emitted by the frame loop satisfies
activeCount + distinctEliminatedCount = initialRosterCount. -/
theorem active_plus_eliminated_conserved (config : BattleConfig) (dur : ℚ)
    (bers : String → Bool) (inputs : List FrameInput) (st : SimulationState)
    (hnd : (dotIds st.dots).Nodup) (hlog : st.eliminationLog = []) :
    ∀ snap ∈ (runFrames config dur bers inputs st).1,
      snap.dots.length + (elimIdSet snap.eliminationLog).card = st.dots.length := by
  have h0 : conserved st.dots.length st := by
    refine ⟨hnd, ?_, ?_⟩
    · rw [hlog]; simp [elimIdSet, elimIds]
    · rw [hlog]; simp [elimIdSet, elimIds]
  intro snap hs
  exact (runFrames_conserved config dur bers inputs st st.dots.length h0 snap hs).2.2

/-- Witness for C9 on the three-dot roster over one frame. -/
theorem active_plus_eliminated_conserved_witness :
    (dotIds tripInit.dots).Nodup ∧ tripInit.eliminationLog = [] ∧
    ∀ snap ∈ (runFrames DEFAULT_CONFIG 120000 bersNone [inpW] tripInit).1,
      snap.dots.length + (elimIdSet snap.eliminationLog).card =
        tripInit.dots.length :=
  ⟨by decide, rfl,
   active_plus_eliminated_conserved DEFAULT_CONFIG 120000 bersNone [inpW] tripInit
    (by decide) rfl⟩

/-- Claim C10: invoked on an empty roster the driver does not throw: the
first frame takes the termination branch, emits exactly one snapshot in
which `winner` is null while `inProgress` is still true, never invokes
`onComplete`, and schedules no further frame. -/
theorem empty_roster_frame_behavior (config : BattleConfig) (dur : ℚ)
    (bers : String → Bool) (inp : FrameInput) (st : SimulationState)
    (hd : st.dots = []) (hw : st.winner = none) (hp : st.inProgress = true) :
    (updateFrame config dur bers inp st).emitted =
      [(updateFrame config dur bers inp st).state] ∧
    (updateFrame config dur bers inp st).state.winner = none ∧
    (updateFrame config dur bers inp st).state.inProgress = true ∧
    (updateFrame config dur bers inp st).completed = none ∧
    (updateFrame config dur bers inp st).cont = false := by
  have h := updateFrame_terminal_empty config dur bers inp st hd hw
  rw [h]
  exact ⟨rfl, hw, hp, rfl, rfl⟩

/-- Witness for C10 on the concrete empty roster. -/
theorem empty_roster_frame_behavior_witness :
    (updateFrame DEFAULT_CONFIG 120000 bersNone inpW emptyInit).emitted =
      [(updateFrame DEFAULT_CONFIG 120000 bersNone inpW emptyInit).state] ∧
    (updateFrame DEFAULT_CONFIG 120000 bersNone inpW emptyInit).state.winner = none ∧
    (updateFrame DEFAULT_CONFIG 120000 bersNone inpW emptyInit).state.inProgress = true ∧
    (updateFrame DEFAULT_CONFIG 120000 bersNone inpW emptyInit).completed = none ∧
    (updateFrame DEFAULT_CONFIG 120000 bersNone inpW emptyInit).cont = false :=
  empty_roster_frame_behavior DEFAULT_CONFIG 120000 bersNone inpW emptyInit rfl rfl rfl

end DotGames
